import Mathlib

/-!
Verification of the FPGA image-reload orchestration drivers.

This file gives a shallow embedding of the reload orchestrators and the
supporting registry of the linux-dfl image-reload drivers:

* `fpgahpImageLoad`   embeds `__fpgahp_image_load`
  (drivers/pci/hotplug/fpgahp.c), the hotplug-slot revision;
* `dflHotplugImageReload` embeds `dfl_hotplug_image_reload`
  (drivers/fpga/dfl-image-reload.c);
* `reloadStore`       embeds `reload_store`
  (drivers/fpga/dfl-fpga-reload.c), the earliest revision;
* `dfl_reload_disable_pcie_link` embeds the raw Link-Control
  read-modify-write helper of drivers/fpga/dfl-image-reload.c;
* `dfl_image_reload_dev_register`, `dfl_image_reload_trigger_register`
  embed the controller registry and the trigger binding of
  drivers/fpga/dfl-image-reload.c.

External collaborators (PCI core, pciehp primitives, the BMC callbacks,
sleeps) are modelled as a mock environment: each orchestrator takes a
configuration record carrying the results those collaborators would
return, and produces the list of observable operations (`Ev`) performed,
the returned error code, and the final reload state.  `-EINVAL` is `-22`.
Sleeps are recorded in milliseconds.
-/

/-- Reload states of `enum image_reload_states`
(include/linux/fpga/dfl-image-reload.h). -/
inductive ReloadSt where
  | unknown
  | reloading
  | done
  | fail
  deriving DecidableEq, Repr

/-- Manager states of `enum fpgahp_manager_states`
(include/linux/fpga/fpgahp_manager.h). -/
inductive MgrState where
  | unknown
  | loading
  | loadDone
  | hpFail
  deriving DecidableEq, Repr

/-- Observable operations of a reload invocation.  `wait` durations are in
milliseconds.  `isolateSiblings` is `*_remove_sibling_pci_dev` (stop and
remove every PCI function on the target's bus except the target),
`removeSubtree` the removal of the PCI devices below the hotplug bridge,
`sltctlWrite` the Slot-Control power-controller write of
`dfl_hotplug_image_reload`, `removeTarget` the
`pci_stop_and_remove_bus_device_locked` on the target of `reload_store`,
and `maskAer`/`unmaskAer` the AER mask save/restore of the earliest
revision. -/
inductive Ev where
  | isolateSiblings
  | prepare
  | imageTrigger
  | linkDisable
  | removeSubtree
  | wait (msec : Nat)
  | sltctlWrite
  | linkEnable
  | rescan
  | maskAer
  | unmaskAer
  | removeTarget
  deriving DecidableEq, Repr

/-- Mock environment for one `__fpgahp_image_load` invocation: the values
the external collaborators return.  Flags model pointer / registration
checks; `triggerWait` is the `wait_time_msec` written by
`bmc->ops->image_trigger` on success. -/
structure FpgahpCfg where
  pmResumeRet : Int
  pcidevPresent : Bool
  mgrRegistered : Bool
  bmcRegistered : Bool
  hasImageTrigger : Bool
  hasPrepare : Bool
  prepareRet : Int
  triggerRet : Int
  triggerWait : Nat
  linkEnableRet : Int
  rescanRet : Int
  deriving DecidableEq, Repr

/-- The `out:` tail of `__fpgahp_image_load`: set the manager state from
`ret` (`FPGAHP_MGR_HP_FAIL` on error, `FPGAHP_MGR_LOAD_DONE` otherwise),
then attempt the slot rescan only when `ret == 0`
(`if (!ret) ret = fpgahp_rescan_slot(ctrl);`). -/
def fpgahpFinish (c : FpgahpCfg) (evs : List Ev) (ret : Int) : List Ev × Int × MgrState :=
  if ret = 0 then (evs ++ [Ev.rescan], c.rescanRet, MgrState.loadDone)
  else (evs, ret, MgrState.hpFail)

/-- Embedding of `__fpgahp_image_load` (drivers/pci/hotplug/fpgahp.c,
lines 113-191).  Mirrors the control flow: `pm_runtime_resume_and_get`,
the combined precondition check, sibling isolation, optional
`hotplug_prepare`, `image_trigger`, `pciehp_link_disable` (return value
ignored by the C code), `pciehp_unconfigure_device`,
`msleep(wait_time_msec)`, `fpgahp_link_enable`, then the `out:` tail. -/
def fpgahpImageLoad (c : FpgahpCfg) (s0 : MgrState) : List Ev × Int × MgrState :=
  if c.pmResumeRet ≠ 0 then ([], c.pmResumeRet, s0)
  else if c.pcidevPresent = false ∨ c.mgrRegistered = false ∨
          c.bmcRegistered = false ∨ c.hasImageTrigger = false then
    fpgahpFinish c [] (-22)
  else
    let e1 : List Ev :=
      if c.hasPrepare then [Ev.isolateSiblings, Ev.prepare] else [Ev.isolateSiblings]
    if c.hasPrepare = true ∧ c.prepareRet ≠ 0 then fpgahpFinish c e1 c.prepareRet
    else if c.triggerRet ≠ 0 then fpgahpFinish c (e1 ++ [Ev.imageTrigger]) c.triggerRet
    else
      fpgahpFinish c
        (e1 ++ [Ev.imageTrigger, Ev.linkDisable, Ev.removeSubtree,
                Ev.wait c.triggerWait, Ev.linkEnable]) c.linkEnableRet

/-- Entry preconditions of `__fpgahp_image_load`
(`!pcidev || !mgr->registered || !bmc->registered ||
!bmc->ops->image_trigger` fails with `-EINVAL`). -/
def fpgahpPre (c : FpgahpCfg) : Prop :=
  c.pcidevPresent = true ∧ c.mgrRegistered = true ∧
  c.bmcRegistered = true ∧ c.hasImageTrigger = true

/-- Mock environment for one `dfl_hotplug_image_reload` invocation
(drivers/fpga/dfl-image-reload.c).  `linkDisableRet` / `linkEnableRet`
are the results of `dfl_reload_disable_pcie_link(root, true/false)`. -/
structure DflReloadCfg where
  isRegistered : Bool
  triggerRegistered : Bool
  hasImageTrigger : Bool
  pcidevPresent : Bool
  rootPortPresent : Bool
  hasPrepare : Bool
  prepareRet : Int
  triggerRet : Int
  linkDisableRet : Int
  linkEnableRet : Int
  deriving DecidableEq, Repr

/-- Embedding of `dfl_hotplug_image_reload` (drivers/fpga/dfl-image-reload.c,
lines 163-245).  All paths that pass the entry checks fall through `out:`
to the unconditional `dfl_reload_rescan_pci_bus()` and then set
`reload->state = IMAGE_RELOAD_DONE` unconditionally.  On the full path the
code sleeps `ssleep(10)`, writes `PCI_EXP_SLTCTL_PCC`, sleeps `ssleep(1)`,
re-enables the link, and sleeps `msleep(1000)`. -/
def dflHotplugImageReload (c : DflReloadCfg) (s0 : ReloadSt) : List Ev × Int × ReloadSt :=
  if c.isRegistered = false ∨ c.triggerRegistered = false then ([], -22, s0)
  else if c.hasImageTrigger = false then ([], -22, s0)
  else if c.pcidevPresent = false then ([], -22, s0)
  else if c.rootPortPresent = false then ([], -22, s0)
  else
    let fin := fun (evs : List Ev) (ret : Int) => (evs ++ [Ev.rescan], ret, ReloadSt.done)
    let e1 : List Ev :=
      if c.hasPrepare then [Ev.isolateSiblings, Ev.prepare] else [Ev.isolateSiblings]
    if c.hasPrepare = true ∧ c.prepareRet ≠ 0 then fin e1 c.prepareRet
    else if c.triggerRet ≠ 0 then fin (e1 ++ [Ev.imageTrigger]) c.triggerRet
    else if c.linkDisableRet ≠ 0 then
      fin (e1 ++ [Ev.imageTrigger, Ev.linkDisable]) c.linkDisableRet
    else if c.linkEnableRet ≠ 0 then
      fin (e1 ++ [Ev.imageTrigger, Ev.linkDisable, Ev.removeSubtree, Ev.wait 10000,
                  Ev.sltctlWrite, Ev.wait 1000, Ev.linkEnable]) c.linkEnableRet
    else
      fin (e1 ++ [Ev.imageTrigger, Ev.linkDisable, Ev.removeSubtree, Ev.wait 10000,
                  Ev.sltctlWrite, Ev.wait 1000, Ev.linkEnable, Ev.wait 1000]) 0

/-- Entry preconditions of `dfl_hotplug_image_reload` (the four sequential
`-EINVAL` checks, plus `pcie_find_root_port` resolving). -/
def dflReloadPre (c : DflReloadCfg) : Prop :=
  c.isRegistered = true ∧ c.triggerRegistered = true ∧ c.hasImageTrigger = true ∧
  c.pcidevPresent = true ∧ c.rootPortPresent = true

/-- Mock environment for one `reload_store` invocation
(drivers/fpga/dfl-fpga-reload.c).  `count` is the sysfs write size. -/
structure FpgaReloadCfg where
  hasOps : Bool
  hasPriv : Bool
  hasTriggerOps : Bool
  hasTriggerPriv : Bool
  rootPortPresent : Bool
  hasPrepare : Bool
  prepareRet : Int
  hasImageTrigger : Bool
  triggerRet : Int
  count : Nat
  deriving DecidableEq, Repr

/-- Embedding of `reload_store` (drivers/fpga/dfl-fpga-reload.c, lines
116-164), the earliest revision.  Note the fidelity points: the return
value of `ops->prepare` is discarded by the C code (so `prepareRet` is
unused), the target removal runs even when the trigger failed, the 20 s
wait runs only when `ret == 0`, and the final return is
`ret ? : count`. -/
def reloadStore (c : FpgaReloadCfg) : List Ev × Int :=
  if c.hasOps = false ∨ c.hasPriv = false ∨
     c.hasTriggerOps = false ∨ c.hasTriggerPriv = false then ([], -22)
  else if c.rootPortPresent = false then ([], -22)
  else
    let e1 : List Ev := [Ev.maskAer] ++ (if c.hasPrepare then [Ev.prepare] else [])
    let tr : List Ev × Int :=
      if c.hasImageTrigger then (e1 ++ [Ev.imageTrigger], c.triggerRet) else (e1, -22)
    let e3 := tr.1 ++ [Ev.wait 100, Ev.removeTarget]
    let e4 := e3 ++ (if tr.2 = 0 then [Ev.wait 20000] else [])
    (e4 ++ [Ev.rescan, Ev.unmaskAer], if tr.2 = 0 then Int.ofNat c.count else tr.2)

/-- `PCI_EXP_LNKCTL_LD`, the Link-Disable bit of the PCIe Link Control
register (bit 4). -/
def PCI_EXP_LNKCTL_LD : Nat := 0x0010

/-- Embedding of `dfl_reload_disable_pcie_link` (drivers/fpga/dfl-image-reload.c,
lines 29-56) after a successful 16-bit read of `PCI_EXP_LNKCTL` returning
`linkctl`: the result is (register value after the call, whether a config
write was issued, returned error code).  `linkctl &= ~PCI_EXP_LNKCTL_LD`
on a `u16` is `&&& 0xFFEF`.  The write is modelled as succeeding; the
claim under verification concerns the no-write path and the register
state. -/
def dfl_reload_disable_pcie_link (linkctl : Nat) (disable : Bool) : Nat × Bool × Int :=
  if disable then
    if linkctl &&& PCI_EXP_LNKCTL_LD ≠ 0 then (linkctl, false, 0)
    else (linkctl ||| PCI_EXP_LNKCTL_LD, true, 0)
  else
    if linkctl &&& PCI_EXP_LNKCTL_LD = 0 then (linkctl, false, 0)
    else (linkctl &&& 0xFFEF, true, 0)

/-- The trigger sub-entity embedded in a controller (`struct
dfl_image_trigger`): ops pointer, opaque `priv`, the anchor device
(modelled by its parent chain), the registration flag and `wait_time`.
A freshly `kzalloc`ed controller has the all-zero trigger. -/
structure TriggerRec where
  ops : Option Nat
  priv : Option Nat
  parent : Option (List Nat)
  isRegistered : Bool
  waitTime : Nat
  deriving DecidableEq, Repr

/-- The all-zero trigger of a freshly allocated controller. -/
def TriggerRec.zero : TriggerRec :=
  { ops := none, priv := none, parent := none, isRegistered := false, waitTime := 0 }

/-- One controller of the registry (`struct dfl_image_reload` together
with its slot): pointers are modelled as numeric identities.
`hotplugDev` is the resolved root port, `priv` the target `pci_dev`,
`ops` the reload-ops pointer. -/
structure RegCtl where
  id : Nat
  hotplugDev : Nat
  priv : Nat
  ops : Nat
  name : Nat
  isRegistered : Bool
  state : ReloadSt
  trigger : TriggerRec
  deriving DecidableEq, Repr

/-- The registry (`struct dfl_image_reload_priv` plus an allocation
counter): `devList` is `dfl_priv->dev_list`, `nextId` the next fresh
allocation identity, `slotRegs` the number of `pci_hp_register` calls
performed so far. -/
structure RegState where
  devList : List RegCtl
  nextId : Nat
  slotRegs : Nat
  deriving DecidableEq, Repr

/-- Environment of a registration call: `rootOf` is
`pcie_find_root_port`, `hpRegRet` the result `pci_hp_register` would
return for a newly created slot. -/
structure RegEnv where
  rootOf : Nat → Option Nat
  hpRegRet : Int

/-- Match predicate of `dfl_find_exist_reload`: skip unregistered
entries, match on `priv` and `ops`. -/
def existMatch (pcidev ops : Nat) (r : RegCtl) : Bool :=
  r.isRegistered && r.priv == pcidev && r.ops == ops

/-- Embedding of `dfl_find_exist_reload` (drivers/fpga/dfl-image-reload.c,
lines 377-397): first registered entry with matching `priv` and `ops`. -/
def dfl_find_exist_reload (l : List RegCtl) (pcidev ops : Nat) : Option RegCtl :=
  l.find? (existMatch pcidev ops)

/-- Embedding of `dfl_find_free_reload` (drivers/fpga/dfl-image-reload.c,
lines 399-429).  Walks the list: registered entries are skipped; the
first unregistered entry bound to `hotplugDev` is returned (list
unchanged from there on); other unregistered entries in state
`IMAGE_RELOAD_DONE` are deregistered and freed (dropped from the list);
the rest are kept.  Returns the found entry and the surviving list. -/
def dfl_find_free_reload (hotplugDev : Nat) : List RegCtl → Option RegCtl × List RegCtl
  | [] => (none, [])
  | r :: rest =>
    if r.isRegistered then
      ((dfl_find_free_reload hotplugDev rest).1, r :: (dfl_find_free_reload hotplugDev rest).2)
    else if r.hotplugDev = hotplugDev then (some r, r :: rest)
    else if r.state = ReloadSt.done then dfl_find_free_reload hotplugDev rest
    else
      ((dfl_find_free_reload hotplugDev rest).1, r :: (dfl_find_free_reload hotplugDev rest).2)

/-- The field updates of the `reuse:` label of
`dfl_image_reload_dev_register`: rebind `ops`, `name`, `priv`, set
registered and state `IMAGE_RELOAD_UNKNOWN`; `hotplugDev` and the
trigger are untouched. -/
def rebindReload (r : RegCtl) (o nm p : Nat) : RegCtl :=
  { r with ops := o, name := nm, priv := p, isRegistered := true, state := ReloadSt.unknown }

/-- In-place update of the list entry (entries) with identity `i`, as the
rebinding acts on the found controller object inside the list. -/
def listRebind (l : List RegCtl) (i o nm p : Nat) : List RegCtl :=
  l.map fun r => if r.id = i then rebindReload r o nm p else r

/-- Embedding of `dfl_image_reload_dev_register`
(drivers/fpga/dfl-image-reload.c, lines 447-510).  Null `ops`/`priv` or
an unresolvable root port fail with `-EINVAL`; otherwise: return an
existing registered match; else reclaim a free controller on the same
bridge and rebind it; else allocate a new controller, register its slot
(`pci_hp_register`, failing with `hpRegRet`), prepend it to the list and
bind it.  The result carries the new registry state and the identity of
the returned controller. -/
def dfl_image_reload_dev_register (env : RegEnv) (s : RegState) (nm : Nat)
    (ops priv : Option Nat) : RegState × Except Int Nat :=
  match ops, priv with
  | some o, some p =>
    match env.rootOf p with
    | none => (s, Except.error (-22))
    | some hp =>
      match dfl_find_exist_reload s.devList p o with
      | some r => (s, Except.ok r.id)
      | none =>
        match (dfl_find_free_reload hp s.devList).1 with
        | some r =>
          ({ s with devList := listRebind (dfl_find_free_reload hp s.devList).2 r.id o nm p },
           Except.ok r.id)
        | none =>
          if env.hpRegRet ≠ 0 then
            ({ s with devList := (dfl_find_free_reload hp s.devList).2 },
             Except.error env.hpRegRet)
          else
            ({ devList :=
                 { id := s.nextId, hotplugDev := hp, priv := p, ops := o, name := nm,
                   isRegistered := true, state := ReloadSt.unknown,
                   trigger := TriggerRec.zero } :: (dfl_find_free_reload hp s.devList).2,
               nextId := s.nextId + 1, slotRegs := s.slotRegs + 1 }, Except.ok s.nextId)
  | _, _ => (s, Except.error (-22))

/-- `RELOAD_DEFAULT_WAIT_SECS` (include/linux/fpga/dfl-image-reload.h). -/
def RELOAD_DEFAULT_WAIT_SECS : Nat := 10

/-- Embedding of `dfl_match_trigger_dev` (drivers/fpga/dfl-image-reload.c,
lines 252-269): walk the anchor's parent chain (the anchor itself first)
comparing against the controller's target device. -/
def dfl_match_trigger_dev (reloadDev : Nat) : List Nat → Bool
  | [] => false
  | d :: rest => if d = reloadDev then true else dfl_match_trigger_dev reloadDev rest

/-- Match predicate of `dfl_find_trigger`: registered controllers whose
target device occurs on the anchor's parent chain. -/
def triggerMatch (chain : List Nat) (r : RegCtl) : Bool :=
  r.isRegistered && dfl_match_trigger_dev r.priv chain

/-- Embedding of `dfl_find_trigger` (drivers/fpga/dfl-image-reload.c,
lines 271-289). -/
def dfl_find_trigger (l : List RegCtl) (chain : List Nat) : Option RegCtl :=
  l.find? (triggerMatch chain)

/-- The trigger fields written by a successful
`dfl_image_reload_trigger_register`. -/
def newTrigger (o : Nat) (priv : Option Nat) (chain : List Nat) : TriggerRec :=
  { ops := some o, priv := priv, parent := some chain, isRegistered := true,
    waitTime := RELOAD_DEFAULT_WAIT_SECS }

/-- Embedding of `dfl_image_reload_trigger_register`
(drivers/fpga/dfl-image-reload.c, lines 291-317): null `ops` or no
registered controller owning the anchor fail with `-EINVAL`; otherwise
the found controller's trigger fields are populated in place. -/
def dfl_image_reload_trigger_register (s : RegState) (ops : Option Nat)
    (chain : List Nat) (priv : Option Nat) : RegState × Except Int Nat :=
  match ops with
  | none => (s, Except.error (-22))
  | some o =>
    match dfl_find_trigger s.devList chain with
    | none => (s, Except.error (-22))
    | some r =>
      ({ s with devList := s.devList.map fun c =>
          if c.id = r.id then { c with trigger := newTrigger o priv chain } else c },
       Except.ok r.id)

/-! ### Concrete mock configurations used to evaluate the embeddings -/

/-- All-success mock configuration for `__fpgahp_image_load`: every
collaborator succeeds and the trigger reports a 5000 ms wait. -/
def cfgOkA : FpgahpCfg :=
  { pmResumeRet := 0, pcidevPresent := true, mgrRegistered := true, bmcRegistered := true,
    hasImageTrigger := true, hasPrepare := true, prepareRet := 0, triggerRet := 0,
    triggerWait := 5000, linkEnableRet := 0, rescanRet := 0 }

/-- `cfgOkA` but `hotplug_prepare` fails with `-5`. -/
def cfgPrepFailA : FpgahpCfg := { cfgOkA with prepareRet := -5 }

/-- `cfgOkA` but `image_trigger` fails with `-5`. -/
def cfgTrigFailA : FpgahpCfg := { cfgOkA with triggerRet := -5 }

/-- `cfgOkA` but the manager is not registered. -/
def cfgBadA : FpgahpCfg := { cfgOkA with mgrRegistered := false }

/-- All-success mock configuration for `dfl_hotplug_image_reload`. -/
def cfgOkB : DflReloadCfg :=
  { isRegistered := true, triggerRegistered := true, hasImageTrigger := true,
    pcidevPresent := true, rootPortPresent := true, hasPrepare := true,
    prepareRet := 0, triggerRet := 0, linkDisableRet := 0, linkEnableRet := 0 }

/-- `cfgOkB` but `reload_prepare` fails with `-5`. -/
def cfgPrepFailB : DflReloadCfg := { cfgOkB with prepareRet := -5 }

/-- `cfgOkB` but `image_trigger` fails with `-5`. -/
def cfgTrigFailB : DflReloadCfg := { cfgOkB with triggerRet := -5 }

/-- `cfgOkB` but the trigger is not registered. -/
def cfgBadB : DflReloadCfg := { cfgOkB with triggerRegistered := false }

/-- Mock configuration for `reload_store`: everything present, prepare
fails with `-5`, the trigger itself succeeds. -/
def cfgStoreC3 : FpgaReloadCfg :=
  { hasOps := true, hasPriv := true, hasTriggerOps := true, hasTriggerPriv := true,
    rootPortPresent := true, hasPrepare := true, prepareRet := -5,
    hasImageTrigger := true, triggerRet := 0, count := 4 }

/-- Registration environment for concrete runs: every target resolves to
root port 7 and slot registration succeeds. -/
def wEnv : RegEnv := { rootOf := fun _ => some 7, hpRegRet := 0 }

/-- The empty registry. -/
def wS0 : RegState := { devList := [], nextId := 0, slotRegs := 0 }

/-- The controller created by registering target 3 with ops 2 and name 1
in the empty registry under `wEnv`. -/
def wCtlNew : RegCtl :=
  { id := 0, hotplugDev := 7, priv := 3, ops := 2, name := 1,
    isRegistered := true, state := ReloadSt.unknown, trigger := TriggerRec.zero }

/-- The registry after that first registration. -/
def wS1 : RegState := { devList := [wCtlNew], nextId := 1, slotRegs := 1 }

/-- An unregistered controller bound to bridge 7 (left over from an
earlier target 9). -/
def wCtlFree : RegCtl :=
  { id := 0, hotplugDev := 7, priv := 9, ops := 4, name := 0,
    isRegistered := false, state := ReloadSt.unknown, trigger := TriggerRec.zero }

/-- A registry holding only the reclaimable controller `wCtlFree`. -/
def wS7 : RegState := { devList := [wCtlFree], nextId := 1, slotRegs := 1 }

/-- A registered controller whose target device is 3, used for the
trigger-binding runs. -/
def wCtlReg : RegCtl :=
  { id := 5, hotplugDev := 7, priv := 3, ops := 2, name := 1,
    isRegistered := true, state := ReloadSt.unknown, trigger := TriggerRec.zero }

/-- A registry holding only the registered controller `wCtlReg`. -/
def wS8 : RegState := { devList := [wCtlReg], nextId := 6, slotRegs := 1 }

/-- `wS8` after binding a trigger with ops 8 and priv 9 anchored at
device 11, whose parent chain is 11 → 4 → 3 (the controller's target). -/
def wS9 : RegState :=
  { devList := [{ wCtlReg with trigger := newTrigger 8 (some 9) [11, 4, 3] }],
    nextId := 6, slotRegs := 1 }

/-! ### Characterization lemmas for the orchestrator embeddings -/

/-- On the all-success path, `__fpgahp_image_load` performs the eight
steps in order and ends in `FPGAHP_MGR_LOAD_DONE`. -/
theorem fpgahpImageLoad_ok (c : FpgahpCfg) (s0 : MgrState) (hpm : c.pmResumeRet = 0)
    (h1 : c.pcidevPresent = true) (h2 : c.mgrRegistered = true) (h3 : c.bmcRegistered = true)
    (h4 : c.hasImageTrigger = true) (hprep : c.hasPrepare = true)
    (hp : c.prepareRet = 0) (ht : c.triggerRet = 0) (hl : c.linkEnableRet = 0) :
    fpgahpImageLoad c s0 =
      ([Ev.isolateSiblings, Ev.prepare, Ev.imageTrigger, Ev.linkDisable, Ev.removeSubtree,
        Ev.wait c.triggerWait, Ev.linkEnable, Ev.rescan], c.rescanRet, MgrState.loadDone) := by
  simp [fpgahpImageLoad, fpgahpFinish, hpm, h1, h2, h3, h4, hprep, hp, ht, hl]

/-- When `hotplug_prepare` fails, `__fpgahp_image_load` stops after the
prepare call: no trigger, no link or subtree operation, no rescan. -/
theorem fpgahpImageLoad_prepfail (c : FpgahpCfg) (s0 : MgrState) (hpm : c.pmResumeRet = 0)
    (h1 : c.pcidevPresent = true) (h2 : c.mgrRegistered = true) (h3 : c.bmcRegistered = true)
    (h4 : c.hasImageTrigger = true) (hprep : c.hasPrepare = true) (hp : c.prepareRet ≠ 0) :
    fpgahpImageLoad c s0 =
      ([Ev.isolateSiblings, Ev.prepare], c.prepareRet, MgrState.hpFail) := by
  simp [fpgahpImageLoad, fpgahpFinish, hpm, h1, h2, h3, h4, hprep, hp]

/-- When `image_trigger` fails, `__fpgahp_image_load` stops right after
the trigger call: no link or subtree operation, no rescan. -/
theorem fpgahpImageLoad_trigfail (c : FpgahpCfg) (s0 : MgrState) (hpm : c.pmResumeRet = 0)
    (h1 : c.pcidevPresent = true) (h2 : c.mgrRegistered = true) (h3 : c.bmcRegistered = true)
    (h4 : c.hasImageTrigger = true) (hp : c.hasPrepare = true → c.prepareRet = 0)
    (ht : c.triggerRet ≠ 0) :
    fpgahpImageLoad c s0 =
      ((if c.hasPrepare then [Ev.isolateSiblings, Ev.prepare] else [Ev.isolateSiblings]) ++
        [Ev.imageTrigger], c.triggerRet, MgrState.hpFail) := by
  cases hpr : c.hasPrepare
  · simp [fpgahpImageLoad, fpgahpFinish, hpm, h1, h2, h3, h4, hpr, ht]
  · simp [fpgahpImageLoad, fpgahpFinish, hpm, h1, h2, h3, h4, hpr, hp hpr, ht]

/-- When re-enabling the link fails, `__fpgahp_image_load` ends in
`FPGAHP_MGR_HP_FAIL` and does not rescan. -/
theorem fpgahpImageLoad_linkfail (c : FpgahpCfg) (s0 : MgrState) (hpm : c.pmResumeRet = 0)
    (h1 : c.pcidevPresent = true) (h2 : c.mgrRegistered = true) (h3 : c.bmcRegistered = true)
    (h4 : c.hasImageTrigger = true) (hp : c.hasPrepare = true → c.prepareRet = 0)
    (ht : c.triggerRet = 0) (hl : c.linkEnableRet ≠ 0) :
    fpgahpImageLoad c s0 =
      ((if c.hasPrepare then [Ev.isolateSiblings, Ev.prepare] else [Ev.isolateSiblings]) ++
        [Ev.imageTrigger, Ev.linkDisable, Ev.removeSubtree, Ev.wait c.triggerWait,
         Ev.linkEnable], c.linkEnableRet, MgrState.hpFail) := by
  cases hpr : c.hasPrepare
  · simp [fpgahpImageLoad, fpgahpFinish, hpm, h1, h2, h3, h4, hpr, ht, hl]
  · simp [fpgahpImageLoad, fpgahpFinish, hpm, h1, h2, h3, h4, hpr, hp hpr, ht, hl]

/-- Every invocation of `dfl_hotplug_image_reload` that passes the entry
checks falls through `out:` to the unconditional rescan and ends with
`reload->state = IMAGE_RELOAD_DONE`, whatever the step results. -/
theorem dflHotplugImageReload_rescan_done (c : DflReloadCfg) (s0 : ReloadSt)
    (h1 : c.isRegistered = true) (h2 : c.triggerRegistered = true)
    (h3 : c.hasImageTrigger = true) (h4 : c.pcidevPresent = true)
    (h5 : c.rootPortPresent = true) :
    Ev.rescan ∈ (dflHotplugImageReload c s0).1 ∧
    (dflHotplugImageReload c s0).2.2 = ReloadSt.done := by
  simp only [dflHotplugImageReload, h1, h2, h3, h4, h5]
  split_ifs <;> simp_all

/-- When `reload_prepare` fails, `dfl_hotplug_image_reload` performs only
sibling isolation, the prepare call, and the best-effort rescan. -/
theorem dflHotplugImageReload_prepfail (c : DflReloadCfg) (s0 : ReloadSt)
    (h1 : c.isRegistered = true) (h2 : c.triggerRegistered = true)
    (h3 : c.hasImageTrigger = true) (h4 : c.pcidevPresent = true)
    (h5 : c.rootPortPresent = true) (hprep : c.hasPrepare = true) (hp : c.prepareRet ≠ 0) :
    dflHotplugImageReload c s0 =
      ([Ev.isolateSiblings, Ev.prepare, Ev.rescan], c.prepareRet, ReloadSt.done) := by
  simp [dflHotplugImageReload, h1, h2, h3, h4, h5, hprep, hp]

/-- When `image_trigger` fails, `dfl_hotplug_image_reload` stops after
the trigger call and the best-effort rescan; the link is never touched. -/
theorem dflHotplugImageReload_trigfail (c : DflReloadCfg) (s0 : ReloadSt)
    (h1 : c.isRegistered = true) (h2 : c.triggerRegistered = true)
    (h3 : c.hasImageTrigger = true) (h4 : c.pcidevPresent = true)
    (h5 : c.rootPortPresent = true) (hp : c.hasPrepare = true → c.prepareRet = 0)
    (ht : c.triggerRet ≠ 0) :
    dflHotplugImageReload c s0 =
      ((if c.hasPrepare then [Ev.isolateSiblings, Ev.prepare] else [Ev.isolateSiblings]) ++
        [Ev.imageTrigger, Ev.rescan], c.triggerRet, ReloadSt.done) := by
  cases hpr : c.hasPrepare
  · simp [dflHotplugImageReload, h1, h2, h3, h4, h5, hpr, ht]
  · simp [dflHotplugImageReload, h1, h2, h3, h4, h5, hpr, hp hpr, ht]

/-! ### Claim theorems -/

/-- C1: for every successful reload invocation of `__fpgahp_image_load`
on a controller satisfying the entry preconditions (and whose driver
supplies the prepare callback), the observed operations are exactly, in
order: isolate siblings, prepare, image_trigger, link-disable, remove
subtree, sleep for (at least) the trigger-reported wait time, link
re-enable, rescan — each performed exactly once. -/
theorem fpgahp_reload_ordering (c : FpgahpCfg) (s0 : MgrState)
    (hpm : c.pmResumeRet = 0) (hpre : fpgahpPre c) (hprep : c.hasPrepare = true)
    (hok : (fpgahpImageLoad c s0).2.1 = 0) :
    (fpgahpImageLoad c s0).1 =
      [Ev.isolateSiblings, Ev.prepare, Ev.imageTrigger, Ev.linkDisable,
       Ev.removeSubtree, Ev.wait c.triggerWait, Ev.linkEnable, Ev.rescan] ∧
    (fpgahpImageLoad c s0).1.Nodup ∧
    (∀ d, Ev.wait d ∈ (fpgahpImageLoad c s0).1 → c.triggerWait ≤ d) := by
  obtain ⟨h1, h2, h3, h4⟩ := hpre
  by_cases hp : c.prepareRet = 0
  · by_cases ht : c.triggerRet = 0
    · by_cases hl : c.linkEnableRet = 0
      · rw [fpgahpImageLoad_ok c s0 hpm h1 h2 h3 h4 hprep hp ht hl]
        refine ⟨rfl, by simp, ?_⟩
        intro d hd
        simp only [List.mem_cons, List.not_mem_nil, or_false] at hd
        rcases hd with h | h | h | h | h | h | h | h <;> simp_all
      · rw [fpgahpImageLoad_linkfail c s0 hpm h1 h2 h3 h4 (fun _ => hp) ht hl] at hok
        simp at hok
        exact absurd hok hl
    · rw [fpgahpImageLoad_trigfail c s0 hpm h1 h2 h3 h4 (fun _ => hp) ht] at hok
      simp at hok
      exact absurd hok ht
  · rw [fpgahpImageLoad_prepfail c s0 hpm h1 h2 h3 h4 hprep hp] at hok
    simp at hok
    exact absurd hok hp

/-- Witness for C1: evaluation of the all-success configuration. -/
theorem fpgahp_reload_ordering_witness :
    (fpgahpImageLoad cfgOkA MgrState.unknown).1 =
      [Ev.isolateSiblings, Ev.prepare, Ev.imageTrigger, Ev.linkDisable,
       Ev.removeSubtree, Ev.wait cfgOkA.triggerWait, Ev.linkEnable, Ev.rescan] ∧
    (fpgahpImageLoad cfgOkA MgrState.unknown).1.Nodup ∧
    (∀ d, Ev.wait d ∈ (fpgahpImageLoad cfgOkA MgrState.unknown).1 → cfgOkA.triggerWait ≤ d) :=
  fpgahp_reload_ordering cfgOkA MgrState.unknown rfl ⟨rfl, rfl, rfl, rfl⟩ rfl (by decide)

/-- C2 counterexample: an invocation of `__fpgahp_image_load` that passes
the entry precondition check and whose prepare step fails with `-5`
returns without any rescan attempt — the C code guards the rescan with
`if (!ret)`, so the claim "a rescan attempt is always made" is false at
this input. -/
theorem fpgahp_skips_rescan_on_failure :
    fpgahpImageLoad cfgPrepFailA MgrState.unknown =
      ([Ev.isolateSiblings, Ev.prepare], -5, MgrState.hpFail) ∧
    Ev.rescan ∉ (fpgahpImageLoad cfgPrepFailA MgrState.unknown).1 := by
  decide

/-- C2 (amended): in `dfl_hotplug_image_reload` a rescan attempt is made
before returning for every invocation passing the entry precondition
check, regardless of which step failed; in `__fpgahp_image_load` the
rescan is attempted exactly when all prior steps succeeded (the reload
ended `FPGAHP_MGR_LOAD_DONE`), and is skipped on any step failure. -/
theorem reload_rescan_policy :
    (∀ (c : DflReloadCfg) (s0 : ReloadSt), dflReloadPre c →
       Ev.rescan ∈ (dflHotplugImageReload c s0).1) ∧
    (∀ (c : FpgahpCfg) (s0 : MgrState), c.pmResumeRet = 0 →
       (Ev.rescan ∈ (fpgahpImageLoad c s0).1 ↔
        (fpgahpImageLoad c s0).2.2 = MgrState.loadDone)) := by
  constructor
  · rintro c s0 ⟨h1, h2, h3, h4, h5⟩
    exact (dflHotplugImageReload_rescan_done c s0 h1 h2 h3 h4 h5).1
  · intro c s0 hpm
    simp only [fpgahpImageLoad, fpgahpFinish, hpm]
    split_ifs <;> simp_all

/-- Witness for C2: evaluation of both amended statements. -/
theorem reload_rescan_policy_witness :
    Ev.rescan ∈ (dflHotplugImageReload cfgTrigFailB ReloadSt.unknown).1 ∧
    (Ev.rescan ∈ (fpgahpImageLoad cfgPrepFailA MgrState.unknown).1 ↔
     (fpgahpImageLoad cfgPrepFailA MgrState.unknown).2.2 = MgrState.loadDone) :=
  ⟨reload_rescan_policy.1 cfgTrigFailB ReloadSt.unknown ⟨rfl, rfl, rfl, rfl, rfl⟩,
   reload_rescan_policy.2 cfgPrepFailA MgrState.unknown rfl⟩

/-- C3 counterexample: in the earliest revision (`reload_store`), the
return value of `ops->prepare` is discarded, so with prepare failing
(`-5`) the trigger is still invoked; and in `__fpgahp_image_load` the
sibling functions have already been stopped and removed from the bus
before prepare runs, so a bus mutation has occurred in an invocation
whose prepare failed.  Both refute the claim as stated. -/
theorem reload_store_ignores_prepare_error :
    (cfgStoreC3.prepareRet = -5 ∧ Ev.imageTrigger ∈ (reloadStore cfgStoreC3).1) ∧
    (cfgPrepFailA.prepareRet = -5 ∧
     Ev.isolateSiblings ∈ (fpgahpImageLoad cfgPrepFailA MgrState.unknown).1) := by
  decide

/-- C3 (amended): in `__fpgahp_image_load` and `dfl_hotplug_image_reload`,
if prepare returns a non-zero error then `image_trigger` is never called
and no link operation or subtree removal occurs (the sibling isolation
has already been performed before prepare, and the dfl revision still
runs its best-effort rescan); if `image_trigger` returns a non-zero
error then link-disable is never called.  In the earliest revision
(`reload_store`) prepare's return value is ignored and the trigger runs
regardless. -/
theorem reload_failfast :
    (∀ (c : FpgahpCfg) (s0 : MgrState), c.pmResumeRet = 0 → fpgahpPre c →
       c.hasPrepare = true → c.prepareRet ≠ 0 →
       (fpgahpImageLoad c s0).1 = [Ev.isolateSiblings, Ev.prepare]) ∧
    (∀ (c : FpgahpCfg) (s0 : MgrState), c.pmResumeRet = 0 → fpgahpPre c →
       (c.hasPrepare = true → c.prepareRet = 0) → c.triggerRet ≠ 0 →
       Ev.linkDisable ∉ (fpgahpImageLoad c s0).1 ∧
       Ev.removeSubtree ∉ (fpgahpImageLoad c s0).1) ∧
    (∀ (c : DflReloadCfg) (s0 : ReloadSt), dflReloadPre c →
       c.hasPrepare = true → c.prepareRet ≠ 0 →
       (dflHotplugImageReload c s0).1 = [Ev.isolateSiblings, Ev.prepare, Ev.rescan]) ∧
    (∀ (c : DflReloadCfg) (s0 : ReloadSt), dflReloadPre c →
       (c.hasPrepare = true → c.prepareRet = 0) → c.triggerRet ≠ 0 →
       Ev.linkDisable ∉ (dflHotplugImageReload c s0).1) := by
  refine ⟨?_, ?_, ?_, ?_⟩
  · rintro c s0 hpm ⟨h1, h2, h3, h4⟩ hprep hp
    rw [fpgahpImageLoad_prepfail c s0 hpm h1 h2 h3 h4 hprep hp]
  · rintro c s0 hpm ⟨h1, h2, h3, h4⟩ hp ht
    rw [fpgahpImageLoad_trigfail c s0 hpm h1 h2 h3 h4 hp ht]
    cases hpr : c.hasPrepare <;> simp [hpr]
  · rintro c s0 ⟨h1, h2, h3, h4, h5⟩ hprep hp
    rw [dflHotplugImageReload_prepfail c s0 h1 h2 h3 h4 h5 hprep hp]
  · rintro c s0 ⟨h1, h2, h3, h4, h5⟩ hp ht
    rw [dflHotplugImageReload_trigfail c s0 h1 h2 h3 h4 h5 hp ht]
    cases hpr : c.hasPrepare <;> simp [hpr]

/-- Witness for C3: evaluation of each amended statement. -/
theorem reload_failfast_witness :
    (fpgahpImageLoad cfgPrepFailA MgrState.unknown).1 = [Ev.isolateSiblings, Ev.prepare] ∧
    (Ev.linkDisable ∉ (fpgahpImageLoad cfgTrigFailA MgrState.unknown).1 ∧
     Ev.removeSubtree ∉ (fpgahpImageLoad cfgTrigFailA MgrState.unknown).1) ∧
    (dflHotplugImageReload cfgPrepFailB ReloadSt.unknown).1 =
      [Ev.isolateSiblings, Ev.prepare, Ev.rescan] ∧
    Ev.linkDisable ∉ (dflHotplugImageReload cfgTrigFailB ReloadSt.unknown).1 :=
  ⟨reload_failfast.1 cfgPrepFailA MgrState.unknown rfl ⟨rfl, rfl, rfl, rfl⟩ rfl (by decide),
   reload_failfast.2.1 cfgTrigFailA MgrState.unknown rfl ⟨rfl, rfl, rfl, rfl⟩
     (fun _ => rfl) (by decide),
   reload_failfast.2.2.1 cfgPrepFailB ReloadSt.unknown ⟨rfl, rfl, rfl, rfl, rfl⟩ rfl (by decide),
   reload_failfast.2.2.2 cfgTrigFailB ReloadSt.unknown ⟨rfl, rfl, rfl, rfl, rfl⟩
     (fun _ => rfl) (by decide)⟩

/-- C4 counterexample: an invocation of `dfl_hotplug_image_reload` whose
`image_trigger` fails with `-5` returns `-5` to the caller but leaves the
controller state `IMAGE_RELOAD_DONE` — the C code sets
`reload->state = IMAGE_RELOAD_DONE` unconditionally — where the claim
requires the final state `FAIL`. -/
theorem dfl_reload_done_after_trigger_failure :
    dflHotplugImageReload cfgTrigFailB ReloadSt.unknown =
      ([Ev.isolateSiblings, Ev.prepare, Ev.imageTrigger, Ev.rescan], -5, ReloadSt.done) ∧
    ReloadSt.done ≠ ReloadSt.fail := by
  decide

/-- C4 (amended): in `__fpgahp_image_load`, for every invocation passing
the entry precondition check the final state is `FPGAHP_MGR_LOAD_DONE`
exactly when prepare (if present), `image_trigger` and the link
re-enable all succeeded, and `FPGAHP_MGR_HP_FAIL` otherwise; the
best-effort rescan result does not change the state.
`dfl_hotplug_image_reload`, by contrast, sets `DONE` unconditionally. -/
theorem fpgahp_final_state (c : FpgahpCfg) (s0 : MgrState)
    (hpm : c.pmResumeRet = 0) (hpre : fpgahpPre c) :
    (fpgahpImageLoad c s0).2.2 =
      if (c.hasPrepare = false ∨ c.prepareRet = 0) ∧ c.triggerRet = 0 ∧ c.linkEnableRet = 0
      then MgrState.loadDone else MgrState.hpFail := by
  obtain ⟨h1, h2, h3, h4⟩ := hpre
  simp only [fpgahpImageLoad, fpgahpFinish, hpm, h1, h2, h3, h4]
  split_ifs <;> simp_all

/-- Witness for C4: evaluation at the all-success configuration. -/
theorem fpgahp_final_state_witness :
    (fpgahpImageLoad cfgOkA MgrState.unknown).2.2 =
      if (cfgOkA.hasPrepare = false ∨ cfgOkA.prepareRet = 0) ∧
         cfgOkA.triggerRet = 0 ∧ cfgOkA.linkEnableRet = 0
      then MgrState.loadDone else MgrState.hpFail :=
  fpgahp_final_state cfgOkA MgrState.unknown rfl ⟨rfl, rfl, rfl, rfl⟩

/-- C5: invoking the reload with the controller unregistered, the trigger
unregistered, the trigger ops missing `image_trigger`, or a null target
device returns `-EINVAL` and performs zero bus mutations: the observed
operation list is empty (no sibling removal, no prepare call, no trigger
call, no link or subtree operation, no rescan).  Proved for both
`__fpgahp_image_load` and `dfl_hotplug_image_reload`. -/
theorem reload_precondition_enforcement :
    (∀ (c : FpgahpCfg) (s0 : MgrState), c.pmResumeRet = 0 → ¬ fpgahpPre c →
       (fpgahpImageLoad c s0).1 = [] ∧ (fpgahpImageLoad c s0).2.1 = -22) ∧
    (∀ (c : DflReloadCfg) (s0 : ReloadSt),
       ¬(c.isRegistered = true ∧ c.triggerRegistered = true ∧
         c.hasImageTrigger = true ∧ c.pcidevPresent = true) →
       dflHotplugImageReload c s0 = ([], -22, s0)) := by
  constructor
  · intro c s0 hpm hnp
    simp only [fpgahpPre, not_and_or, Bool.not_eq_true] at hnp
    simp only [fpgahpImageLoad, hpm]
    rw [if_neg (by simp), if_pos hnp]
    simp [fpgahpFinish]
  · intro c s0 hnp
    simp only [not_and_or, Bool.not_eq_true] at hnp
    obtain ⟨r1, r2, r3, r4, r5, r6, p, t, ld, le⟩ := c
    cases r1 <;> cases r2 <;> cases r3 <;> cases r4 <;>
      simp_all [dflHotplugImageReload]

/-- Witness for C5: an unregistered manager and an unregistered trigger. -/
theorem reload_precondition_enforcement_witness :
    ((fpgahpImageLoad cfgBadA MgrState.unknown).1 = [] ∧
     (fpgahpImageLoad cfgBadA MgrState.unknown).2.1 = -22) ∧
    dflHotplugImageReload cfgBadB ReloadSt.unknown = ([], -22, ReloadSt.unknown) :=
  ⟨reload_precondition_enforcement.1 cfgBadA MgrState.unknown rfl
     (by simp [fpgahpPre, cfgBadA, cfgOkA]),
   reload_precondition_enforcement.2 cfgBadB ReloadSt.unknown
     (by simp [cfgBadB, cfgOkB])⟩

/-- The Link-Disable-bit test of the C code (`linkctl & PCI_EXP_LNKCTL_LD`)
expressed through `testBit` of bit 4. -/
theorem land_LD_eq (v : Nat) :
    v &&& 16 = if v.testBit 4 then 16 else 0 := by
  have h : v &&& 2 ^ 4 = (v.testBit 4).toNat * 2 ^ 4 := Nat.and_two_pow v 4
  have h16 : (16 : Nat) = 2 ^ 4 := by norm_num
  rw [h16, h]
  cases v.testBit 4 <;> simp

/-- C9: the raw link-bit control is idempotent: for every Link Control
value, if the Link-Disable bit already matches the requested state the
operation issues no register write and returns 0 with the register
unchanged; and applying the same disable (or enable) request twice
leaves the register in the same state as applying it once. -/
theorem link_bit_idempotent (v : Nat) :
    (v.testBit 4 = true → dfl_reload_disable_pcie_link v true = (v, false, 0)) ∧
    (v.testBit 4 = false → dfl_reload_disable_pcie_link v false = (v, false, 0)) ∧
    (∀ d : Bool,
      (dfl_reload_disable_pcie_link (dfl_reload_disable_pcie_link v d).1 d).1 =
        (dfl_reload_disable_pcie_link v d).1) := by
  refine ⟨?_, ?_, ?_⟩
  · intro h
    simp [dfl_reload_disable_pcie_link, PCI_EXP_LNKCTL_LD, land_LD_eq, h]
  · intro h
    simp [dfl_reload_disable_pcie_link, PCI_EXP_LNKCTL_LD, land_LD_eq, h]
  · intro d
    cases d <;> cases h : v.testBit 4 <;>
      simp [dfl_reload_disable_pcie_link, PCI_EXP_LNKCTL_LD, land_LD_eq, h,
            (by decide : Nat.testBit 16 4 = true),
            (by decide : Nat.testBit 0xFFEF 4 = false)]

/-- Witness for C9: the already-disabled register 16 is left untouched by
a disable request, the all-zero register by an enable request, and a
double disable of 0 equals a single one. -/
theorem link_bit_idempotent_witness :
    dfl_reload_disable_pcie_link 16 true = (16, false, 0) ∧
    dfl_reload_disable_pcie_link 0 false = (0, false, 0) ∧
    (dfl_reload_disable_pcie_link (dfl_reload_disable_pcie_link 0 true).1 true).1 =
      (dfl_reload_disable_pcie_link 0 true).1 :=
  ⟨(link_bit_idempotent 16).1 (by decide), (link_bit_idempotent 0).2.1 (by decide),
   (link_bit_idempotent 0).2.2 true⟩

/-! ### Path lemmas and list lemmas for the registry -/

/-- `dfl_image_reload_dev_register`: null-argument / unresolvable-bridge
path. -/
theorem register_noroot_path (env : RegEnv) (s : RegState) (nm o p : Nat)
    (hroot : env.rootOf p = none) :
    dfl_image_reload_dev_register env s nm (some o) (some p) = (s, Except.error (-22)) := by
  simp only [dfl_image_reload_dev_register]
  rw [hroot]

/-- `dfl_image_reload_dev_register`: the idempotent find-existing path
returns the found controller unchanged. -/
theorem register_exist_path (env : RegEnv) (s : RegState) (nm o p hpb : Nat)
    (hroot : env.rootOf p = some hpb) (u : RegCtl)
    (hfind : dfl_find_exist_reload s.devList p o = some u) :
    dfl_image_reload_dev_register env s nm (some o) (some p) = (s, Except.ok u.id) := by
  simp only [dfl_image_reload_dev_register]
  rw [hroot, hfind]

/-- `dfl_image_reload_dev_register`: the reclaim path rebinds the found
free controller in place. -/
theorem register_reclaim_path (env : RegEnv) (s : RegState) (nm o p hpb : Nat)
    (hroot : env.rootOf p = some hpb)
    (hfind : dfl_find_exist_reload s.devList p o = none) (r : RegCtl)
    (hfr : (dfl_find_free_reload hpb s.devList).1 = some r) :
    dfl_image_reload_dev_register env s nm (some o) (some p) =
      ({ s with devList := listRebind (dfl_find_free_reload hpb s.devList).2 r.id o nm p },
       Except.ok r.id) := by
  simp only [dfl_image_reload_dev_register, hroot, hfind, hfr]

/-- `dfl_image_reload_dev_register`: the allocation path prepends a fresh
controller and counts one slot registration. -/
theorem register_new_path (env : RegEnv) (s : RegState) (nm o p hpb : Nat)
    (hroot : env.rootOf p = some hpb)
    (hfind : dfl_find_exist_reload s.devList p o = none)
    (hfr : (dfl_find_free_reload hpb s.devList).1 = none)
    (hok : env.hpRegRet = 0) :
    dfl_image_reload_dev_register env s nm (some o) (some p) =
      ({ devList :=
           { id := s.nextId, hotplugDev := hpb, priv := p, ops := o, name := nm,
             isRegistered := true, state := ReloadSt.unknown,
             trigger := TriggerRec.zero } :: (dfl_find_free_reload hpb s.devList).2,
         nextId := s.nextId + 1, slotRegs := s.slotRegs + 1 }, Except.ok s.nextId) := by
  simp only [dfl_image_reload_dev_register, hroot, hfind, hfr, hok]
  rw [if_neg (by simp)]

/-- `dfl_image_reload_dev_register`: the allocation path when
`pci_hp_register` fails. -/
theorem register_hpfail_path (env : RegEnv) (s : RegState) (nm o p hpb : Nat)
    (hroot : env.rootOf p = some hpb)
    (hfind : dfl_find_exist_reload s.devList p o = none)
    (hfr : (dfl_find_free_reload hpb s.devList).1 = none)
    (hbad : env.hpRegRet ≠ 0) :
    dfl_image_reload_dev_register env s nm (some o) (some p) =
      ({ s with devList := (dfl_find_free_reload hpb s.devList).2 },
       Except.error env.hpRegRet) := by
  simp only [dfl_image_reload_dev_register, hroot, hfind, hfr, if_pos hbad]

/-- Entries surviving the sweep of `dfl_find_free_reload` were entries of
the original list. -/
theorem find_free_mem (hpb : Nat) (l : List RegCtl) :
    ∀ r ∈ (dfl_find_free_reload hpb l).2, r ∈ l := by
  induction l with
  | nil => simp [dfl_find_free_reload]
  | cons a t ih =>
    intro r hr
    simp only [dfl_find_free_reload] at hr
    split_ifs at hr
    · rcases List.mem_cons.1 hr with h | h
      · exact h ▸ List.mem_cons_self a t
      · exact List.mem_cons_of_mem a (ih r h)
    · exact hr
    · exact List.mem_cons_of_mem a (ih r hr)
    · rcases List.mem_cons.1 hr with h | h
      · exact h ▸ List.mem_cons_self a t
      · exact List.mem_cons_of_mem a (ih r h)

/-- A controller found by `dfl_find_free_reload` is an unregistered entry
of the original list bound to the requested bridge, and survives the
sweep. -/
theorem find_free_found (hpb : Nat) (l : List RegCtl) :
    ∀ r : RegCtl, (dfl_find_free_reload hpb l).1 = some r →
      r ∈ l ∧ r.isRegistered = false ∧ r.hotplugDev = hpb ∧
        r ∈ (dfl_find_free_reload hpb l).2 := by
  induction l with
  | nil => intro r h; simp [dfl_find_free_reload] at h
  | cons a t ih =>
    intro r h
    simp only [dfl_find_free_reload] at h ⊢
    split_ifs at h ⊢ with h1 h2 h3
    · obtain ⟨hm, hr2, hh, hm2⟩ := ih r h
      exact ⟨List.mem_cons_of_mem a hm, hr2, hh, List.mem_cons_of_mem a hm2⟩
    · have ha : a = r := by simpa using h
      subst ha
      simp only [Bool.not_eq_true] at h1
      exact ⟨List.mem_cons_self a t, h1, h2, List.mem_cons_self a t⟩
    · obtain ⟨hm, hr2, hh, hm2⟩ := ih r h
      exact ⟨List.mem_cons_of_mem a hm, hr2, hh, hm2⟩
    · obtain ⟨hm, hr2, hh, hm2⟩ := ih r h
      exact ⟨List.mem_cons_of_mem a hm, hr2, hh, List.mem_cons_of_mem a hm2⟩

/-- If the list holds an unregistered entry bound to the requested
bridge, `dfl_find_free_reload` finds one. -/
theorem find_free_exists (hpb : Nat) (l : List RegCtl) :
    (∃ r ∈ l, r.isRegistered = false ∧ r.hotplugDev = hpb) →
    ∃ r0, (dfl_find_free_reload hpb l).1 = some r0 := by
  induction l with
  | nil => rintro ⟨r, hr, _⟩; simp at hr
  | cons a t ih =>
    rintro ⟨r, hr, hreg, hhp⟩
    simp only [dfl_find_free_reload]
    split_ifs with h1 h2 h3
    · have hrt : r ∈ t := by
        rcases List.mem_cons.1 hr with h | h
        · subst h; simp [hreg] at h1
        · exact h
      exact ih ⟨r, hrt, hreg, hhp⟩
    · exact ⟨a, rfl⟩
    · have hrt : r ∈ t := by
        rcases List.mem_cons.1 hr with h | h
        · subst h; exact absurd hhp h2
        · exact h
      exact ih ⟨r, hrt, hreg, hhp⟩
    · have hrt : r ∈ t := by
        rcases List.mem_cons.1 hr with h | h
        · subst h; exact absurd hhp h2
        · exact h
      exact ih ⟨r, hrt, hreg, hhp⟩

/-- After rebinding the entry with identity `i` in a list with no
registered (`priv`, `ops`) match, `dfl_find_exist_reload` finds exactly a
rebound entry with identity `i`. -/
theorem find_exist_after_rebind (i o nm p : Nat) (l2 : List RegCtl) :
    (∀ r ∈ l2, existMatch p o r = false) →
    (∃ r ∈ l2, r.id = i) →
    ∃ u, dfl_find_exist_reload (listRebind l2 i o nm p) p o = some u ∧ u.id = i := by
  induction l2 with
  | nil => rintro _ ⟨r, hr, _⟩; simp at hr
  | cons a t ih =>
    rintro hno ⟨r, hr, hri⟩
    by_cases hid : a.id = i
    · refine ⟨rebindReload a o nm p, ?_, by simp [rebindReload, hid]⟩
      have hpos : existMatch p o (rebindReload a o nm p) = true := by
        simp [existMatch, rebindReload]
      simp only [dfl_find_exist_reload, listRebind, List.map_cons, if_pos hid]
      exact List.find?_cons_of_pos _ hpos
    · have hrt : r ∈ t := by
        rcases List.mem_cons.1 hr with h | h
        · subst h; exact absurd hri hid
        · exact h
      obtain ⟨u, hu, hui⟩ :=
        ih (fun x hx => hno x (List.mem_cons_of_mem a hx)) ⟨r, hrt, hri⟩
      refine ⟨u, ?_, hui⟩
      have hneg : ¬ (existMatch p o a = true) := by
        simp [hno a (List.mem_cons_self a t)]
      simp only [dfl_find_exist_reload, listRebind, List.map_cons, if_neg hid]
      rw [List.find?_cons_of_neg _ hneg]
      exact hu

/-- C6: controller registration is idempotent: if registering target `p`
with ops `o` returned controller `i` leaving registry `s1`, registering
the same target and ops again returns the very same controller identity
`i` and leaves the registry exactly `s1` — in particular no new
controller is allocated (`nextId` unchanged) and no new hotplug slot is
registered (`slotRegs` unchanged). -/
theorem dfl_register_idempotent (env : RegEnv) (s s1 : RegState) (nm o p i : Nat)
    (h : dfl_image_reload_dev_register env s nm (some o) (some p) = (s1, Except.ok i)) :
    dfl_image_reload_dev_register env s1 nm (some o) (some p) = (s1, Except.ok i) := by
  cases hroot : env.rootOf p with
  | none =>
    rw [register_noroot_path env s nm o p hroot] at h
    simp at h
  | some hpb =>
    cases hfind : dfl_find_exist_reload s.devList p o with
    | some r =>
      rw [register_exist_path env s nm o p hpb hroot r hfind] at h
      simp only [Prod.mk.injEq, Except.ok.injEq] at h
      obtain ⟨hs, hi⟩ := h
      subst hs
      rw [register_exist_path env s nm o p hpb hroot r hfind, hi]
    | none =>
      cases hfr : (dfl_find_free_reload hpb s.devList).1 with
      | some r =>
        rw [register_reclaim_path env s nm o p hpb hroot hfind r hfr] at h
        simp only [Prod.mk.injEq, Except.ok.injEq] at h
        obtain ⟨hs, hi⟩ := h
        have hno : ∀ x ∈ (dfl_find_free_reload hpb s.devList).2, existMatch p o x = false := by
          intro x hx
          have hx2 := find_free_mem hpb s.devList x hx
          have h3 := List.find?_eq_none.mp hfind x hx2
          simpa using h3
        obtain ⟨hm, hreg, hhp, hm2⟩ := find_free_found hpb s.devList r hfr
        obtain ⟨u, hu, hui⟩ := find_exist_after_rebind r.id o nm p
          (dfl_find_free_reload hpb s.devList).2 hno ⟨r, hm2, rfl⟩
        have hu1 : dfl_find_exist_reload s1.devList p o = some u := by
          rw [← hs]
          exact hu
        rw [register_exist_path env s1 nm o p hpb hroot u hu1, hui, hi]
      | none =>
        by_cases hbad : env.hpRegRet ≠ 0
        · rw [register_hpfail_path env s nm o p hpb hroot hfind hfr hbad] at h
          simp at h
        · push_neg at hbad
          rw [register_new_path env s nm o p hpb hroot hfind hfr hbad] at h
          simp only [Prod.mk.injEq, Except.ok.injEq] at h
          obtain ⟨hs, hi⟩ := h
          have hu1 : dfl_find_exist_reload s1.devList p o = some
              { id := s.nextId, hotplugDev := hpb, priv := p, ops := o, name := nm,
                isRegistered := true, state := ReloadSt.unknown,
                trigger := TriggerRec.zero } := by
            rw [← hs]
            exact List.find?_cons_of_pos _ (by simp [existMatch])
          rw [register_exist_path env s1 nm o p hpb hroot _ hu1]
          exact congrArg (fun j => (s1, Except.ok j)) hi

/-- Witness for C6: registering target 3 twice in a row from the empty
registry returns controller 0 both times and leaves the registry
unchanged after the second call. -/
theorem dfl_register_idempotent_witness :
    dfl_image_reload_dev_register wEnv wS1 1 (some 2) (some 3) = (wS1, Except.ok 0) :=
  dfl_register_idempotent wEnv wS0 wS1 1 2 3 0 rfl

/-- C7: if the registry holds an unregistered controller bound to bridge
`B`, no registered controller matches the new target exactly, and the
new target resolves to bridge `B`, then registration reclaims that
existing controller: it returns its identity, allocates no new
controller (`nextId` unchanged), registers no new slot (`slotRegs`
unchanged), and the controller reappears rebound — registered, with the
new `priv`, `ops` and `name`. -/
theorem dfl_register_reclaims (env : RegEnv) (s : RegState) (nm o p B : Nat)
    (hB : env.rootOf p = some B)
    (hnoexist : dfl_find_exist_reload s.devList p o = none)
    (hfree : ∃ r ∈ s.devList, r.isRegistered = false ∧ r.hotplugDev = B) :
    ∃ r ∈ s.devList, r.isRegistered = false ∧ r.hotplugDev = B ∧
      (dfl_image_reload_dev_register env s nm (some o) (some p)).2 = Except.ok r.id ∧
      (dfl_image_reload_dev_register env s nm (some o) (some p)).1.nextId = s.nextId ∧
      (dfl_image_reload_dev_register env s nm (some o) (some p)).1.slotRegs = s.slotRegs ∧
      rebindReload r o nm p ∈
        (dfl_image_reload_dev_register env s nm (some o) (some p)).1.devList := by
  obtain ⟨r0, hr0⟩ := find_free_exists B s.devList hfree
  obtain ⟨hm, hreg, hhp, hm2⟩ := find_free_found B s.devList r0 hr0
  rw [register_reclaim_path env s nm o p B hB hnoexist r0 hr0]
  refine ⟨r0, hm, hreg, hhp, rfl, rfl, rfl, ?_⟩
  simpa [listRebind] using List.mem_map_of_mem
    (fun x => if x.id = r0.id then rebindReload x o nm p else x) hm2

/-- Witness for C7: reclaiming the unregistered controller of `wS7` for
the new target 3 on the same bridge 7. -/
theorem dfl_register_reclaims_witness :
    ∃ r ∈ wS7.devList, r.isRegistered = false ∧ r.hotplugDev = 7 ∧
      (dfl_image_reload_dev_register wEnv wS7 1 (some 2) (some 3)).2 = Except.ok r.id ∧
      (dfl_image_reload_dev_register wEnv wS7 1 (some 2) (some 3)).1.nextId = wS7.nextId ∧
      (dfl_image_reload_dev_register wEnv wS7 1 (some 2) (some 3)).1.slotRegs = wS7.slotRegs ∧
      rebindReload r 2 1 3 ∈
        (dfl_image_reload_dev_register wEnv wS7 1 (some 2) (some 3)).1.devList :=
  dfl_register_reclaims wEnv wS7 1 2 3 7 rfl rfl ⟨wCtlFree, by simp [wS7], rfl, rfl⟩

/-- C8: trigger binding by ancestry.  If no registered controller's
target device lies on the anchor's parent chain, trigger registration
returns `-EINVAL` and modifies nothing.  If the anchor is a descendant
(at any depth, the parent chain walked by `dfl_match_trigger_dev`) of the
target of exactly one registered controller, registration succeeds,
returns that controller, populates its trigger fields (ops, priv,
parent) and sets its registered flag, and every other controller is left
untouched. -/
theorem dfl_trigger_binding (s : RegState) (chain : List Nat) :
    (∀ (ops : Option Nat) (priv : Option Nat),
       (∀ r ∈ s.devList, r.isRegistered = true → dfl_match_trigger_dev r.priv chain = false) →
       dfl_image_reload_trigger_register s ops chain priv = (s, Except.error (-22))) ∧
    (∀ (o : Nat) (priv : Option Nat) (r : RegCtl),
       r ∈ s.devList → r.isRegistered = true → dfl_match_trigger_dev r.priv chain = true →
       (∀ x ∈ s.devList, x.isRegistered = true →
          dfl_match_trigger_dev x.priv chain = true → x = r) →
       (dfl_image_reload_trigger_register s (some o) chain priv).2 = Except.ok r.id ∧
       { r with trigger := newTrigger o priv chain } ∈
         (dfl_image_reload_trigger_register s (some o) chain priv).1.devList ∧
       ∀ x ∈ s.devList, x.id ≠ r.id →
         x ∈ (dfl_image_reload_trigger_register s (some o) chain priv).1.devList) := by
  constructor
  · intro ops priv hno
    cases ops with
    | none => rfl
    | some o =>
      have hfind : dfl_find_trigger s.devList chain = none := by
        have : s.devList.find? (triggerMatch chain) = none := by
          rw [List.find?_eq_none]
          intro x hx
          simp only [triggerMatch, Bool.and_eq_true, not_and]
          intro ha hb
          rw [hno x hx ha] at hb
          exact absurd hb (by simp)
        exact this
      simp only [dfl_image_reload_trigger_register, hfind]
  · intro o priv r hr hreg hmatch huniq
    have hfind : dfl_find_trigger s.devList chain = some r := by
      cases hf : dfl_find_trigger s.devList chain with
      | none =>
        have hf2 : s.devList.find? (triggerMatch chain) = none := hf
        rw [List.find?_eq_none] at hf2
        exact absurd (by simp [triggerMatch, hreg, hmatch]) (hf2 r hr)
      | some u =>
        have hf2 : s.devList.find? (triggerMatch chain) = some u := hf
        have hu1 := List.find?_some hf2
        have hu2 := List.mem_of_find?_eq_some hf2
        simp only [triggerMatch, Bool.and_eq_true] at hu1
        rw [huniq u hu2 hu1.1 hu1.2]
    simp only [dfl_image_reload_trigger_register, hfind]
    refine ⟨trivial, ?_, ?_⟩
    · simpa using List.mem_map_of_mem
        (fun c => if c.id = r.id then { c with trigger := newTrigger o priv chain } else c) hr
    · intro x hx hxid
      have hmap := List.mem_map_of_mem
        (fun c => if c.id = r.id then { c with trigger := newTrigger o priv chain } else c) hx
      simpa [hxid] using hmap

/-- Witness for C8: in `wS8` the anchor chain 11 → 4 (not reaching the
target 3) is rejected, while the chain 11 → 4 → 3 binds the trigger of
controller 5. -/
theorem dfl_trigger_binding_witness :
    dfl_image_reload_trigger_register wS8 (some 8) [11, 4] (some 9) =
      (wS8, Except.error (-22)) ∧
    ((dfl_image_reload_trigger_register wS8 (some 8) [11, 4, 3] (some 9)).2 =
       Except.ok wCtlReg.id ∧
     { wCtlReg with trigger := newTrigger 8 (some 9) [11, 4, 3] } ∈
       (dfl_image_reload_trigger_register wS8 (some 8) [11, 4, 3] (some 9)).1.devList ∧
     ∀ x ∈ wS8.devList, x.id ≠ wCtlReg.id →
       x ∈ (dfl_image_reload_trigger_register wS8 (some 8) [11, 4, 3] (some 9)).1.devList) :=
  ⟨(dfl_trigger_binding wS8 [11, 4]).1 (some 8) (some 9) (by decide),
   (dfl_trigger_binding wS8 [11, 4, 3]).2 8 (some 9) wCtlReg (by simp [wS8]) rfl rfl
     (by decide)⟩

/-- C10: every successful trigger registration stores
`RELOAD_DEFAULT_WAIT_SECS` (10) in the bound trigger's `wait_time`,
whatever ops, anchor chain, priv, or previously stored value: the
returned controller carries `waitTime = 10`, and every controller the
call modified carries `waitTime = 10`. -/
theorem dfl_trigger_wait_default (s : RegState) (ops : Option Nat) (chain : List Nat)
    (priv : Option Nat) (s1 : RegState) (i : Nat)
    (h : dfl_image_reload_trigger_register s ops chain priv = (s1, Except.ok i)) :
    (∃ c ∈ s1.devList, c.id = i ∧ c.trigger.waitTime = RELOAD_DEFAULT_WAIT_SECS ∧
       c.trigger.isRegistered = true) ∧
    ∀ c ∈ s1.devList, c ∈ s.devList ∨ c.trigger.waitTime = RELOAD_DEFAULT_WAIT_SECS := by
  cases ops with
  | none => simp [dfl_image_reload_trigger_register] at h
  | some o =>
    cases hfind : dfl_find_trigger s.devList chain with
    | none =>
      simp only [dfl_image_reload_trigger_register, hfind] at h
      simp at h
    | some r =>
      simp only [dfl_image_reload_trigger_register, hfind] at h
      simp only [Prod.mk.injEq, Except.ok.injEq] at h
      obtain ⟨hs, hi⟩ := h
      have hfind2 : s.devList.find? (triggerMatch chain) = some r := hfind
      have hrmem := List.mem_of_find?_eq_some hfind2
      constructor
      · refine ⟨{ r with trigger := newTrigger o priv chain }, ?_, by simp [hi], rfl, rfl⟩
        rw [← hs]
        simpa using List.mem_map_of_mem
          (fun c => if c.id = r.id then { c with trigger := newTrigger o priv chain } else c)
          hrmem
      · intro c hc
        rw [← hs] at hc
        simp only [List.mem_map] at hc
        obtain ⟨a, ha, hfa⟩ := hc
        by_cases hida : a.id = r.id
        · right
          rw [← hfa]
          simp [hida, newTrigger]
        · left
          rw [← hfa]
          simpa [hida] using ha

/-- Witness for C10: the successful binding of the C8 witness stores
`wait_time = 10`. -/
theorem dfl_trigger_wait_default_witness :
    (∃ c ∈ wS9.devList, c.id = 5 ∧ c.trigger.waitTime = RELOAD_DEFAULT_WAIT_SECS ∧
       c.trigger.isRegistered = true) ∧
    ∀ c ∈ wS9.devList, c ∈ wS8.devList ∨ c.trigger.waitTime = RELOAD_DEFAULT_WAIT_SECS :=
  dfl_trigger_wait_default wS8 (some 8) [11, 4, 3] (some 9) wS9 5 rfl
